import Mathlib

/-!
Shallow embedding of the MQTT door-controller firmware
(src/software/app_main.c) and verification of its specification claims.

The firmware is an event handler: on MQTT connect it publishes a status
message and subscribes to a control topic; on a data event it compares the
topic and payload with `strncmp` and drives one GPIO plus an acknowledgment
publish. We model byte strings as `List Nat` (byte values), the C library
function `strncmp` explicitly, and every externally visible side effect
(GPIO writes, publishes, subscribes) as an element of an `Action` trace.
-/

namespace AutoDoor

/-- Byte values of an ASCII string literal (no terminating NUL). -/
def bytes (s : String) : List Nat := s.toList.map Char.toNat

/-- A C string literal as passed by pointer: its bytes followed by the
terminating NUL byte. -/
def cterm (l : List Nat) : List Nat := l ++ [0]

-- Configuration constants from app_main.c (lines 22-36).
def TOPIC_STATUS : List Nat := bytes "/dorra/status"

def TOPIC_CONTROL : List Nat := bytes "/dorra/control"

def MSG_CONNECTED : List Nat := bytes "ESP Connected"

def MSG_DISCONNECTED : List Nat := bytes "ESP Disconnected"

-- The acknowledgment strings contain the ASCII apostrophe, byte 39.
def MSG_OPEN_RESPONSE : List Nat := bytes "it" ++ [39] ++ bytes "s open"

def MSG_CLOSE_RESPONSE : List Nat := bytes "it" ++ [39] ++ bytes "s closed"

def CMD_OPEN : List Nat := bytes "open"

def CMD_CLOSE : List Nat := bytes "close"

/-- `LED_GPIO_PIN` is `GPIO_NUM_2` in the source. -/
def LED_GPIO_PIN : Nat := 2

/-- `LED_ON_LEVEL` is 1 (active high) in the source. -/
def LED_ON_LEVEL : Nat := 1

/-- C logical negation on an integer level, as in `!LED_ON_LEVEL`. -/
def cNot (n : Nat) : Nat := if n = 0 then 1 else 0

/-- C `strncmp s1 s2 n`: compare at most `n` bytes, stopping at the first
differing byte (returning their difference) or at a common NUL byte
(returning 0). Out-of-bounds reads, which never occur in the calls this
file models (the first argument always has at least `n` bytes and the
second is a NUL-terminated literal), read byte 0. -/
def strncmp : List Nat → List Nat → Nat → Int
  | _, _, 0 => 0
  | s1, s2, n + 1 =>
    let a := s1.headD 0
    let b := s2.headD 0
    if a ≠ b then (a : Int) - (b : Int)
    else if a = 0 then 0
    else strncmp s1.tail s2.tail n

/-- One externally visible side effect of the handler: a GPIO pin
configuration, a GPIO level write, an MQTT publish
(topic, payload, qos, retain flag) or an MQTT subscribe (topic, qos). -/
inductive Action where
  | configOutput (pin : Nat)
  | setLevel (pin : Nat) (level : Nat)
  | publish (topic : List Nat) (payload : List Nat) (qos : Nat) (retain : Bool)
  | subscribe (topic : List Nat) (qos : Nat)
  deriving DecidableEq

/-- Whether an action is an MQTT publish. -/
def Action.isPublish : Action → Bool
  | .publish _ _ _ _ => true
  | _ => false

/-- Whether an action is an MQTT subscribe request. -/
def Action.isSubscribe : Action → Bool
  | .subscribe _ _ => true
  | _ => false

/-- Whether an action is a GPIO level write. -/
def Action.isSetLevel : Action → Bool
  | .setLevel _ _ => true
  | _ => false

/-- The qos argument of a publish action, if any. -/
def Action.qosOf : Action → Option Nat
  | .publish _ _ q _ => some q
  | _ => none

/-- The retain flag of a publish action, if any. -/
def Action.retainOf : Action → Option Bool
  | .publish _ _ _ r => some r
  | _ => none

/-- `led_set_state(state)` performs
`gpio_set_level(LED_GPIO_PIN, state ? LED_ON_LEVEL : !LED_ON_LEVEL)`
(app_main.c lines 82-86). -/
def led_set_state (state : Bool) : Action :=
  .setLevel LED_GPIO_PIN (if state then LED_ON_LEVEL else cNot LED_ON_LEVEL)

/-- `led_init` (app_main.c lines 61-76): configure the pin as an output,
then set the LED to the OFF state. -/
def led_init : List Action :=
  [.configOutput LED_GPIO_PIN, led_set_state false]

/-- The GPIO-visible initialization trace of `app_main`
(app_main.c lines 226-249): of the startup steps, only `led_init` touches
the output pin, and it runs before the MQTT client is started. -/
def app_main_init : List Action := led_init

/-- `process_control_message(data, data_len, client)`
(app_main.c lines 109-138). The publish calls pass literal arguments
`len = 0` (meaning strlen of the payload), `qos = 1`, `retain = 0`. -/
def process_control_message (data : List Nat) (data_len : Nat) : List Action :=
  if strncmp data (cterm CMD_OPEN) data_len = 0 then
    [led_set_state true,
     .publish TOPIC_STATUS MSG_OPEN_RESPONSE 1 false]
  else if strncmp data (cterm CMD_CLOSE) data_len = 0 then
    [led_set_state false,
     .publish TOPIC_STATUS MSG_CLOSE_RESPONSE 1 false]
  else
    []

/-- `handle_mqtt_connected(client)` (app_main.c lines 91-104): publish
`MSG_CONNECTED` to the status topic with `qos = 1`, `retain = 0`, then
subscribe to the control topic with qos 1. -/
def handle_mqtt_connected : List Action :=
  [.publish TOPIC_STATUS MSG_CONNECTED 1 false,
   .subscribe TOPIC_CONTROL 1]

/-- `handle_mqtt_data(event, client)` (app_main.c lines 143-153): compare
the event topic against `TOPIC_CONTROL` with
`strncmp(event->topic, TOPIC_CONTROL, event->topic_len)` and process the
payload on a match. -/
def handle_mqtt_data (topic : List Nat) (topic_len : Nat)
    (data : List Nat) (data_len : Nat) : List Action :=
  if strncmp topic (cterm TOPIC_CONTROL) topic_len = 0 then
    process_control_message data data_len
  else
    []

/-- An MQTT event as dispatched to `mqtt5_event_handler`; a data event
carries the topic and payload byte strings. -/
inductive MqttEvent where
  | connected
  | disconnected
  | published
  | subscribed
  | data (topic : List Nat) (payload : List Nat)
  | error
  | other (id : Int)

/-- `mqtt5_event_handler` (app_main.c lines 158-200): dispatch on the
event id. Disconnected, published, subscribed, error and unknown events
only log; connected and data events call their handlers, a data event
passing the topic and payload with their lengths. -/
def mqtt5_event_handler : MqttEvent → List Action
  | .connected => handle_mqtt_connected
  | .data topic payload =>
      handle_mqtt_data topic topic.length payload payload.length
  | _ => []

/-- The last-will configuration of the MQTT client. -/
structure LastWill where
  topic : List Nat
  msg : List Nat
  msg_len : Nat
  qos : Nat
  retain : Bool

/-- The last-will part of `mqtt5_cfg` in `mqtt5_app_start`
(app_main.c lines 207-216): topic `TOPIC_STATUS`, message
`MSG_DISCONNECTED` with its strlen, qos 1, retain true. -/
def mqtt5_cfg_last_will : LastWill :=
  { topic := TOPIC_STATUS
    msg := MSG_DISCONNECTED
    msg_len := MSG_DISCONNECTED.length
    qos := 1
    retain := true }

/-- Fold one action into the logical output state: a level write on the
LED pin sets the state to whether the written level equals
`LED_ON_LEVEL`; every other action leaves it unchanged. `none` models an
output whose level has not been written yet. -/
def stepState (s : Option Bool) : Action → Option Bool
  | .setLevel p l => if p = LED_GPIO_PIN then some (decide (l = LED_ON_LEVEL)) else s
  | _ => s

/-- The logical output state after a trace of actions, starting from `s`. -/
def outputState (s : Option Bool) (acts : List Action) : Option Bool :=
  acts.foldl stepState s

/-- C1: the claim fails on the code. `process_control_message` compares
with `strncmp(data, CMD_OPEN, data_len)`, bounding the comparison by the
payload length, so the empty payload and every strict prefix of "open"
(for example "op") is classified as Open: the handler writes the ON level
and publishes the open acknowledgment even though neither payload equals
"open" or "close". -/
theorem C1_prefix_payload_triggers_open :
    process_control_message (bytes "") 0 =
      [Action.setLevel 2 1,
       Action.publish TOPIC_STATUS MSG_OPEN_RESPONSE 1 false] ∧
    process_control_message (bytes "op") 2 =
      [Action.setLevel 2 1,
       Action.publish TOPIC_STATUS MSG_OPEN_RESPONSE 1 false] ∧
    bytes "" ≠ CMD_OPEN ∧ bytes "" ≠ CMD_CLOSE ∧
    bytes "op" ≠ CMD_OPEN ∧ bytes "op" ≠ CMD_CLOSE := by
  decide

/-- C2: the claim fails on the code. `handle_mqtt_data` compares the topic
with `strncmp(event->topic, TOPIC_CONTROL, event->topic_len)`, so any
strict prefix of "/dorra/control", such as "/dorra", is treated as the
control topic: a data event on "/dorra" with payload "open" writes the
GPIO and publishes, although "/dorra" is not the control topic. -/
theorem C2_topic_prefix_processed :
    bytes "/dorra" ≠ TOPIC_CONTROL ∧
    mqtt5_event_handler (MqttEvent.data (bytes "/dorra") (bytes "open")) =
      [Action.setLevel 2 1,
       Action.publish TOPIC_STATUS MSG_OPEN_RESPONSE 1 false] := by
  decide

/-- C3 counterexample: the connected handler issues its status publish
with the retain flag false (the source passes the literal 0), not true as
the claim states; the retained variant of that publish is not in the
trace. -/
theorem C3_connect_publish_not_retained :
    Action.publish TOPIC_STATUS MSG_CONNECTED 1 false ∈
      mqtt5_event_handler MqttEvent.connected ∧
    Action.publish TOPIC_STATUS MSG_CONNECTED 1 true ∉
      mqtt5_event_handler MqttEvent.connected := by
  decide

/-- C3 (amended): every publish the handler issues, on any event, has
qos 1 and retain false. -/
theorem C3_every_publish_qos_one_retain_false :
    ∀ (e : MqttEvent), ∀ a ∈ mqtt5_event_handler e,
      a.isPublish = true → a.qosOf = some 1 ∧ a.retainOf = some false := by
  intro e a ha hp
  cases e with
  | connected =>
      simp only [mqtt5_event_handler, handle_mqtt_connected] at ha
      simp at ha
      rcases ha with rfl | rfl
      · exact ⟨rfl, rfl⟩
      · exact absurd hp (by decide)
  | data t p =>
      simp only [mqtt5_event_handler, handle_mqtt_data,
        process_control_message] at ha
      split at ha
      · split at ha
        · simp at ha
          rcases ha with rfl | rfl
          · exact absurd hp (by decide)
          · exact ⟨rfl, rfl⟩
        · split at ha
          · simp at ha
            rcases ha with rfl | rfl
            · exact absurd hp (by decide)
            · exact ⟨rfl, rfl⟩
          · exact absurd ha (List.not_mem_nil a)
      · exact absurd ha (List.not_mem_nil a)
  | disconnected => exact absurd ha (List.not_mem_nil a)
  | published => exact absurd ha (List.not_mem_nil a)
  | subscribed => exact absurd ha (List.not_mem_nil a)
  | error => exact absurd ha (List.not_mem_nil a)
  | other id => exact absurd ha (List.not_mem_nil a)

/-- Witness for the amended C3 theorem at the connect publish. -/
theorem C3_every_publish_witness :
    (Action.publish TOPIC_STATUS MSG_CONNECTED 1 false).qosOf = some 1 ∧
    (Action.publish TOPIC_STATUS MSG_CONNECTED 1 false).retainOf = some false :=
  C3_every_publish_qos_one_retain_false MqttEvent.connected
    (Action.publish TOPIC_STATUS MSG_CONNECTED 1 false) (by decide) (by decide)

/-- C4: on a data event on the control topic with payload exactly "open",
the handler sets the output state to true (writes the ON level to the LED
pin) and issues exactly one publish, with the open acknowledgment
payload, from any prior output state. -/
theorem C4_open_sets_state_and_acks :
    ∀ s : Option Bool,
      outputState s (mqtt5_event_handler (MqttEvent.data TOPIC_CONTROL CMD_OPEN)) =
        some true ∧
      (mqtt5_event_handler (MqttEvent.data TOPIC_CONTROL CMD_OPEN)).filter
          Action.isPublish =
        [Action.publish TOPIC_STATUS MSG_OPEN_RESPONSE 1 false] := by
  decide

/-- C5: on a data event on the control topic with payload exactly "close",
the handler sets the output state to false (writes the OFF level to the
LED pin) and issues exactly one publish, with the close acknowledgment
payload, from any prior output state. -/
theorem C5_close_sets_state_and_acks :
    ∀ s : Option Bool,
      outputState s (mqtt5_event_handler (MqttEvent.data TOPIC_CONTROL CMD_CLOSE)) =
        some false ∧
      (mqtt5_event_handler (MqttEvent.data TOPIC_CONTROL CMD_CLOSE)).filter
          Action.isPublish =
        [Action.publish TOPIC_STATUS MSG_CLOSE_RESPONSE 1 false] := by
  decide

/-- C6: on a connected event the handler performs exactly one publish, to
the status topic with payload "ESP Connected", and exactly one subscribe
request, to the control topic, with the publish before the subscribe. -/
theorem C6_connected_publish_then_subscribe :
    mqtt5_event_handler MqttEvent.connected =
      [Action.publish TOPIC_STATUS MSG_CONNECTED 1 false,
       Action.subscribe TOPIC_CONTROL 1] ∧
    ((mqtt5_event_handler MqttEvent.connected).filter Action.isPublish).length = 1 ∧
    ((mqtt5_event_handler MqttEvent.connected).filter Action.isSubscribe).length = 1 := by
  decide

/-- C7: handling "open" on the control topic twice in succession leaves
the output state true after each of the two calls, and the combined trace
carries exactly two acknowledgment publishes that are identical (same
topic and payload); the classification consults no prior state. -/
theorem C7_open_idempotent :
    ∀ s : Option Bool,
      outputState s (mqtt5_event_handler (MqttEvent.data TOPIC_CONTROL CMD_OPEN)) =
        some true ∧
      outputState
          (outputState s (mqtt5_event_handler (MqttEvent.data TOPIC_CONTROL CMD_OPEN)))
          (mqtt5_event_handler (MqttEvent.data TOPIC_CONTROL CMD_OPEN)) =
        some true ∧
      (mqtt5_event_handler (MqttEvent.data TOPIC_CONTROL CMD_OPEN) ++
        mqtt5_event_handler (MqttEvent.data TOPIC_CONTROL CMD_OPEN)).filter
          Action.isPublish =
        [Action.publish TOPIC_STATUS MSG_OPEN_RESPONSE 1 false,
         Action.publish TOPIC_STATUS MSG_OPEN_RESPONSE 1 false] := by
  decide

/-- C8: the initialization trace of `app_main` configures the LED pin as
an output and writes the OFF level (0, since the polarity is active
high), so the output state is false after initialization, whatever it was
before, and initialization publishes nothing. -/
theorem C8_init_output_off :
    app_main_init = [Action.configOutput 2, Action.setLevel 2 0] ∧
    (∀ s : Option Bool, outputState s app_main_init = some false) ∧
    app_main_init.filter Action.isPublish = [] := by
  decide

/-- C9: a disconnected event produces no action at all (no GPIO write, no
publish); the "ESP Disconnected" notification is configured as the MQTT
last-will message on the status topic with qos 1 and retain true,
published by the broker rather than by the handler. -/
theorem C9_disconnected_no_effect_last_will :
    mqtt5_event_handler MqttEvent.disconnected = [] ∧
    mqtt5_cfg_last_will.topic = TOPIC_STATUS ∧
    mqtt5_cfg_last_will.msg = MSG_DISCONNECTED ∧
    mqtt5_cfg_last_will.msg_len = MSG_DISCONNECTED.length ∧
    mqtt5_cfg_last_will.qos = 1 ∧
    mqtt5_cfg_last_will.retain = true := by
  decide

/-- C10: each invocation of the control-message processor (reached with
`data_len` equal to the payload length) performs at most one GPIO write
and at most one publish, never carries both the open and the close
acknowledgment, and whenever the open comparison succeeds the result is
the open branch alone, so the close comparison never decides the
outcome. -/
theorem C10_branches_exclusive :
    ∀ data : List Nat,
      ((process_control_message data data.length).filter Action.isPublish).length ≤ 1 ∧
      ((process_control_message data data.length).filter Action.isSetLevel).length ≤ 1 ∧
      ¬(Action.publish TOPIC_STATUS MSG_OPEN_RESPONSE 1 false ∈
          process_control_message data data.length ∧
        Action.publish TOPIC_STATUS MSG_CLOSE_RESPONSE 1 false ∈
          process_control_message data data.length) ∧
      (strncmp data (cterm CMD_OPEN) data.length = 0 →
        process_control_message data data.length =
          [led_set_state true,
           Action.publish TOPIC_STATUS MSG_OPEN_RESPONSE 1 false]) := by
  intro data
  unfold process_control_message
  split
  next hopen => exact ⟨by decide, by decide, by decide, fun _ => rfl⟩
  next hopen =>
    split
    next hclose => exact ⟨by decide, by decide, by decide, fun h => absurd h hopen⟩
    next hclose => exact ⟨by decide, by decide, by decide, fun h => absurd h hopen⟩

/-- Witness for C10 at payload "open". -/
theorem C10_witness :
    process_control_message (bytes "open") (bytes "open").length =
      [led_set_state true,
       Action.publish TOPIC_STATUS MSG_OPEN_RESPONSE 1 false] :=
  (C10_branches_exclusive (bytes "open")).2.2.2 (by decide)

end AutoDoor
